import Mathlib

/-!
Verification of the batch indexation-check orchestration core in src/app.py
against its natural-language specification.

The Python source is shallowly embedded below.  Cell values of a spreadsheet
column are modelled by an inductive type; a pandas DataFrame is modelled as an
ordered association list of named columns; the Python string operations used by
the source (strip, lower, startswith) are modelled by structurally recursive
functions over the character list of a string, so that every definition is
executable by the kernel.  Remote calls are modelled by environment functions
supplied as parameters (the submission outcome per sheet, the report body per
job), and exceptions by Option results: none marks the place where the Python
code raises.
-/

set_option autoImplicit false
set_option maxRecDepth 4000

namespace LinkCheck

/-! ### Python string primitives -/

/-- Model of the Python str.strip method on a character list: drop whitespace
from both ends. -/
def trimCharList (cs : List Char) : List Char :=
  ((cs.dropWhile Char.isWhitespace).reverse.dropWhile Char.isWhitespace).reverse

/-- Model of the Python str.strip method. -/
def pyStrip (s : String) : String :=
  String.mk (trimCharList s.data)

/-- Model of the Python str.lower method (ASCII case folding, as used by the
source on header names and URL schemes). -/
def pyLower (s : String) : String :=
  String.mk (s.data.map Char.toLower)

/-- Model of the Python str.startswith method. -/
def pyStartsWith (s p : String) : Bool :=
  List.isPrefixOf p.data s.data

/-! ### Cells and the looks_like_url predicate (src/app.py lines 72-74) -/

/-- A spreadsheet cell as seen by the source after pandas reading: a string, a
number, a boolean, or an empty (NaN) cell. -/
inductive CellVal
  | str (s : String)
  | num (n : Int)
  | bool (b : Bool)
  | empty
deriving DecidableEq, Repr

abbrev Cells := List CellVal

/-- Embeds looks_like_url: only a string whose stripped, lowercased form starts
with the http or https scheme qualifies (src/app.py lines 72-74). -/
def looks_like_url : CellVal → Bool
  | CellVal.str s =>
      pyStartsWith (pyLower (pyStrip s)) "http://"
        || pyStartsWith (pyLower (pyStrip s)) "https://"
  | _ => false

/-- The stripped string value of a cell; the source only applies strip to cells
that already passed looks_like_url, which are strings. -/
def trimOf : CellVal → String
  | CellVal.str s => pyStrip s
  | _ => ""

/-! ### DataFrames -/

/-- A DataFrame after header detection: the ordered list of named columns.  The
source reads and writes whole columns by name, which is all the claims need. -/
structure DataFrame where
  cols : List (String × Cells)
deriving DecidableEq, Repr

/-- Column names in order, as df.columns. -/
def DataFrame.colNames (df : DataFrame) : List String :=
  df.cols.map Prod.fst

/-- Column access df[name]; the empty column stands for a missing name (the
flows below only read columns that exist). -/
def DataFrame.getCol (df : DataFrame) (name : String) : Cells :=
  (((df.cols.filter (fun q => q.1 == name)).head?).map Prod.snd).getD []

/-- Column assignment df[name] = cells: overwrite in place when the name
exists, append a new column otherwise (pandas semantics). -/
def DataFrame.setCol (df : DataFrame) (name : String) (cells : Cells) : DataFrame :=
  if df.colNames.contains name then
    ⟨df.cols.map (fun q => if q.1 == name then (q.1, cells) else q)⟩
  else
    ⟨df.cols ++ [(name, cells)]⟩

/-! ### Target column detection (src/app.py lines 137-143 and line 230) -/

/-- The keyword list of the submission-side column search (line 140). -/
def detect_keywords : List String :=
  ["source", "url", "link", "referring page url"]

/-- Lookup in the dict comprehension col_map = (c.lower -> c): the last column
with the given lowercase form wins, as later dict assignments overwrite. -/
def col_map_get (names : List String) (k : String) : Option String :=
  (names.filter (fun c => pyLower c == k)).getLast?

/-- Embeds the submission-side target column search (lines 138-143): the first
keyword present in col_map decides the column. -/
def detectTargetCol (df : DataFrame) : Option String :=
  (detect_keywords.filterMap (col_map_get df.colNames)).head?

/-- The narrower keyword list used again at reconciliation time (line 230). -/
def reconcile_keywords : List String :=
  ["source", "url", "link"]

/-- Embeds line 230: the first column, by position, whose lowercase name is in
the reconcile keyword list.  none models the IndexError the subscript [0]
raises on an empty selection. -/
def reconcileTargetCol (df : DataFrame) : Option String :=
  (df.colNames.filter (fun c => reconcile_keywords.contains (pyLower c))).head?

/-! ### URL extraction (src/app.py lines 152-154) -/

/-- Embeds lines 152-154: the cells passing looks_like_url, in row order, each
stripped.  No deduplication is performed by the source. -/
def urls_to_check (cells : Cells) : List String :=
  (cells.filter looks_like_url).map trimOf

/-! ### Report parsing and reconciliation (src/app.py lines 221-241) -/

/-- Embeds line 221: rep_data.get("result", dict()).get("indexed_links", the
empty list).  The outer none models a body without the result key, the inner
none a result object without the indexed_links key. -/
def indexed_set_of (body : Option (Option (List String))) : List String :=
  match body with
  | some (some links) => links
  | _ => []

/-- Embeds the lambda of lines 233-235: a string cell is positive exactly when
its stripped form is in the indexed set; any other cell maps to false. -/
def reconcileVal (links : List String) : CellVal → Bool
  | CellVal.str s => links.contains (pyStrip s)
  | _ => false

/-- Embeds the masked apply of lines 233-235 together with the index-aligned
assignment of line 238, as a full-length column: position i carries some b when
mask i is set (the value the lambda computes from the cell at i), none when the
row is outside the mask and hence never written. -/
def results_series (mask : List Bool) (cells : Cells) (links : List String) :
    List (Option Bool) :=
  List.zipWith (fun m c => if m then some (reconcileVal links c) else none) mask cells

/-- Merging the update of line 238 into the existing Index column (empty when
the column did not exist): an updated position becomes a boolean cell, an
untouched position keeps its old value, NaN when there was none. -/
def mergeIndex : Cells → List (Option Bool) → Cells
  | _, [] => []
  | olds, u :: us =>
      (match u with
        | some b => CellVal.bool b
        | none => olds.head?.getD CellVal.empty) :: mergeIndex olds.tail us

/-- Embeds the per-task report handling of lines 230-241: re-derive the target
column (none models the IndexError of line 230 propagating), compute the
results series over that column under the mask, and write the Index column.
The links argument is the indexed set fetched for the task. -/
def processReport (df : DataFrame) (mask : List Bool) (links : List String) :
    Option DataFrame :=
  match reconcileTargetCol df with
  | none => none
  | some col =>
      some (df.setCol "Index"
        (mergeIndex (df.getCol "Index") (results_series mask (df.getCol col) links)))

/-! ### Stage 1: per-sheet preparation and submission (src/app.py lines 133-183) -/

/-- The submission outcome the environment produces for one sheet: a created
task with its identifier (code equal to zero with a task_id), a payload-level
rejection (code unequal to zero), or a transport exception. -/
inductive SubmitResult
  | ok (tid : Nat)
  | rejected
  | transportError
deriving DecidableEq, Repr

/-- The context stored in active_tasks for one created task (line 172). -/
structure TaskCtx where
  sheet : String
  urls : List String
  original_df : DataFrame
  valid_mask : List Bool
deriving DecidableEq, Repr

/-- The accumulator of the stage-1 loop: processed_sheets, active_tasks (kept
as an ordered list of task id and context), and total_urls_sent. -/
structure Stage1State where
  processed : List (String × DataFrame)
  active : List (Nat × TaskCtx)
  total : Nat
deriving DecidableEq, Repr

/-- Embeds one pass of the stage-1 for loop (lines 133-183) on the sheet p:
no recognised target column or no qualifying URL saves the sheet as is;
otherwise total_urls_sent grows by the URL count before the submission attempt,
and the sheet either becomes an active task or, on rejection or transport
failure, is saved as is. -/
def stage1Step (env : String → SubmitResult) (st : Stage1State)
    (p : String × DataFrame) : Stage1State :=
  match detectTargetCol p.2 with
  | none => { st with processed := st.processed ++ [p] }
  | some t =>
      let cells := p.2.getCol t
      let urls := urls_to_check cells
      if urls.isEmpty then { st with processed := st.processed ++ [p] }
      else
        let st1 := { st with total := st.total + urls.length }
        match env p.1 with
        | SubmitResult.ok tid =>
            { st1 with active :=
                st1.active ++ [(tid, ⟨p.1, urls, p.2, cells.map looks_like_url⟩)] }
        | _ => { st1 with processed := st1.processed ++ [p] }

/-- The whole stage-1 loop over the selected sheets. -/
def stage1 (env : String → SubmitResult) (sheets : List (String × DataFrame)) :
    Stage1State :=
  sheets.foldl (stage1Step env) ⟨[], [], 0⟩

/-- The processed_sheets entry a single sheet contributes in stage 1, as a
function of that sheet and its own submission outcome alone. -/
def sheetProcessedEntry (env : String → SubmitResult) (p : String × DataFrame) :
    Option (String × DataFrame) :=
  match detectTargetCol p.2 with
  | none => some p
  | some t =>
      if (urls_to_check (p.2.getCol t)).isEmpty then some p
      else
        match env p.1 with
        | SubmitResult.ok _ => none
        | _ => some p

/-- The active_tasks entry a single sheet contributes in stage 1. -/
def sheetActiveEntry (env : String → SubmitResult) (p : String × DataFrame) :
    Option (Nat × TaskCtx) :=
  match detectTargetCol p.2 with
  | none => none
  | some t =>
      let cells := p.2.getCol t
      let urls := urls_to_check cells
      if urls.isEmpty then none
      else
        match env p.1 with
        | SubmitResult.ok tid => some (tid, ⟨p.1, urls, p.2, cells.map looks_like_url⟩)
        | _ => none

/-- The contribution of a single sheet to total_urls_sent: its qualifying URL
count, regardless of the submission outcome. -/
def sheetUrlCount (p : String × DataFrame) : Nat :=
  match detectTargetCol p.2 with
  | none => 0
  | some t => (urls_to_check (p.2.getCol t)).length

/-! ### Output assembly and run outcome (src/app.py lines 185-187, 264-287) -/

/-- Lookup in the processed_sheets dict; the last assignment wins. -/
def lookupSheet (ps : List (String × DataFrame)) (name : String) : Option DataFrame :=
  ((ps.filter (fun q => q.1 == name)).getLast?).map Prod.snd

/-- Embeds the writer loop of lines 265-274: the output workbook holds, in the
original workbook order, exactly those sheets present in processed_sheets; a
sheet that is absent is skipped by the pass branch. -/
def writeOutput (all_sheets : List String) (ps : List (String × DataFrame)) :
    List (String × DataFrame) :=
  all_sheets.filterMap (fun s => (lookupSheet ps s).map (fun d => (s, d)))

/-- The terminal shape of a run that got past reading the input file. -/
inductive RunResult
  | stopped
  | download (sheets : List (String × DataFrame))
deriving DecidableEq, Repr

/-- Embeds the run skeleton around stage 1: when active_tasks is empty the run
stops at lines 185-187 with no output file; otherwise the poll stage (abstracted
by the poll parameter, which yields the sheets it saves) runs and the download
of the assembled workbook is offered (lines 264-287). -/
def runOutcome (env : String → SubmitResult)
    (poll : List (Nat × TaskCtx) → List (String × DataFrame))
    (all_sheets : List String) (selected : List (String × DataFrame)) : RunResult :=
  let st := stage1 env selected
  if st.active.isEmpty then RunResult.stopped
  else RunResult.download (writeOutput all_sheets (st.processed ++ poll st.active))

/-! ### The batch poll loop (src/app.py lines 194-257) -/

/-- Embeds one pass of the for loop over the batched status response (lines
210-244).  handle tid is the report handling of lines 216-241 for the task tid
(fetch report, parse, reconcile, hand back the saved sheet); none models an
exception raised there, which propagates out of the for loop into the except
clause of line 255, abandoning the remaining entries of this pass.  Returns the
completed id list, the sheets saved this pass, and whether an exception cut the
pass short. -/
def batchIter (handle : Nat → Option (String × DataFrame)) :
    List (Nat × Bool) → List Nat → List (String × DataFrame) →
    List Nat × List (String × DataFrame) × Bool
  | [], comp, saved => (comp, saved, false)
  | (tid, isc) :: rest, comp, saved =>
      if isc && !(comp.contains tid) then
        match handle tid with
        | none => (comp, saved, true)
        | some pr => batchIter handle rest (comp ++ [tid]) (saved ++ [pr])
      else batchIter handle rest comp saved

/-- The completed id set after n rounds of the poll loop over a fixed status
response, starting from no completed tasks. -/
def pollRounds (handle : Nat → Option (String × DataFrame))
    (stats : List (Nat × Bool)) : Nat → List Nat
  | 0 => []
  | n + 1 => (batchIter handle stats (pollRounds handle stats n) []).1

/-! ### The wall-clock timeout of the poll loop (src/app.py lines 192-197) -/

/-- Embeds the timeout skeleton of the while loop for a job that never
completes: tick m is the duration of iteration m (status call, report attempts,
sleeps); the loop checks elapsed wall-clock time against the 300 second limit
at the top of each iteration (line 195) and gives up once it is exceeded.  The
fuel argument is structural recursion bookkeeping only; 302 units suffice
whenever every tick lasts at least one time unit. -/
def pollTimeoutAux (tick : Nat → Nat) : Nat → Nat → Nat → Nat × Nat
  | 0, n, elapsed => (n, elapsed)
  | fuel + 1, n, elapsed =>
      if 300 < elapsed then (n, elapsed)
      else pollTimeoutAux tick fuel (n + 1) (elapsed + tick n)

/-- The number of poll iterations performed before the loop declares timeout. -/
def pollAttempts (tick : Nat → Nat) : Nat :=
  (pollTimeoutAux tick 302 0 0).1

/-- The elapsed wall-clock time at which the loop declares timeout. -/
def pollElapsed (tick : Nat → Nat) : Nat :=
  (pollTimeoutAux tick 302 0 0).2

/-! ### Concrete inputs used by the theorems below -/

/-- The Backlinks sheet of the specification scenario: its only URL column is
headed Referring Page URL; the data rows hold a URL, a non-URL value, and the
same URL again. -/
def dfBacklinks : DataFrame :=
  ⟨[("Referring Page URL",
      [CellVal.str "https://a.test", CellVal.str "not-a-url",
        CellVal.str "https://a.test"])]⟩

/-- A healthy sibling sheet with a single Source column holding one URL. -/
def dfSibling : DataFrame :=
  ⟨[("Source", [CellVal.str "https://b.test"])]⟩

/-- The report handling of a two-task run: task 1 is the Backlinks sheet (its
reconciliation raises, so handling yields none), task 2 the healthy sibling. -/
def twoTaskHandle (tid : Nat) : Option (String × DataFrame) :=
  if tid == 1 then
    (processReport dfBacklinks [true, false, true] ["https://a.test"]).map
      (fun d => ("Backlinks", d))
  else if tid == 2 then
    (processReport dfSibling [true] ["https://b.test"]).map
      (fun d => ("Sheet2", d))
  else none

/-- A sheet with a single Source column holding a duplicated URL and one
non-URL row, used to exercise the round trip. -/
def dfRound : DataFrame :=
  ⟨[("Source",
      [CellVal.str "https://a.test", CellVal.str "nope",
        CellVal.str "https://a.test"])]⟩

/-- A sheet carrying two URL-ish columns: the submission side picks the column
Source by keyword priority, the reconciliation side picks the column URL by
position. -/
def dfTwoCols : DataFrame :=
  ⟨[("URL", [CellVal.str "https://u.test"]),
    ("Source", [CellVal.str "https://s.test"])]⟩

/-- A sheet with a recognised target column but no qualifying URL. -/
def dfNoUrls : DataFrame :=
  ⟨[("Source", [CellVal.str "hello"])]⟩

/-- A sheet with one qualifying URL, used for runs whose submission fails. -/
def dfOneUrl : DataFrame :=
  ⟨[("Source", [CellVal.str "https://a.test"])]⟩

/-! ### Helper lemmas -/

theorem filterMap_cons_toList {α β : Type} (f : α → Option β) (a : α) (l : List α) :
    List.filterMap f (a :: l) = (f a).toList ++ List.filterMap f l := by
  cases h : f a <;> simp [List.filterMap_cons, h]

theorem stage1Step_spec (env : String → SubmitResult) (st : Stage1State)
    (p : String × DataFrame) :
    stage1Step env st p =
      ⟨st.processed ++ (sheetProcessedEntry env p).toList,
        st.active ++ (sheetActiveEntry env p).toList,
        st.total + sheetUrlCount p⟩ := by
  rcases p with ⟨name, df⟩
  simp only [stage1Step, sheetProcessedEntry, sheetActiveEntry, sheetUrlCount]
  cases hd : detectTargetCol df with
  | none => simp
  | some t =>
      cases hu : urls_to_check (df.getCol t) with
      | nil => simp [hu]
      | cons u us =>
          cases he : env name with
          | ok tid => simp [hu, he]
          | rejected => simp [hu, he]
          | transportError => simp [hu, he]

theorem stage1_append (env : String → SubmitResult) (sheets : List (String × DataFrame)) :
    ∀ st : Stage1State,
      List.foldl (stage1Step env) st sheets =
        ⟨st.processed ++ sheets.filterMap (sheetProcessedEntry env),
          st.active ++ sheets.filterMap (sheetActiveEntry env),
          st.total + (sheets.map sheetUrlCount).sum⟩ := by
  induction sheets with
  | nil => intro st; simp
  | cons p rest ih =>
      intro st
      simp only [List.foldl_cons, ih, stage1Step_spec, filterMap_cons_toList,
        List.map_cons, List.sum_cons]
      simp [List.append_assoc, Nat.add_assoc]

theorem zipWith_map_self {α β γ : Type} (f : β → α → γ) (g : α → β) :
    ∀ l : List α, List.zipWith f (l.map g) l = l.map (fun a => f (g a) a) := by
  intro l
  induction l with
  | nil => rfl
  | cons a rest ih => simp [List.zipWith, ih]

theorem contains_of_mem {α : Type} [BEq α] [LawfulBEq α] {a : α} :
    ∀ {l : List α}, a ∈ l → l.contains a = true := by
  intro l h
  simpa using h

theorem mergeIndex_nil (upd : List (Option Bool)) :
    mergeIndex [] upd = upd.map
      (fun u => match u with
        | some b => CellVal.bool b
        | none => CellVal.empty) := by
  induction upd with
  | nil => rfl
  | cons u us ih => cases u <;> simp [mergeIndex, ih]

theorem getCol_of_not_contains (df : DataFrame) (name : String)
    (h : df.colNames.contains name = false) : df.getCol name = [] := by
  have hq : df.cols.filter (fun q => q.1 == name) = [] := by
    rw [List.filter_eq_nil_iff]
    intro q hqmem hbeq
    have hnm : name ∈ df.colNames := by
      have : q.1 = name := by simpa using hbeq
      exact this ▸ List.mem_map_of_mem Prod.fst hqmem
    have := contains_of_mem hnm
    rw [h] at this
    exact Bool.false_ne_true this
  simp [DataFrame.getCol, hq]

theorem reconcileVal_nil (c : CellVal) : reconcileVal [] c = false := by
  cases c <;> simp [reconcileVal]

theorem reconcileVal_urls (cells : Cells) {c : CellVal} (hc : c ∈ cells)
    (hl : looks_like_url c = true) :
    reconcileVal (urls_to_check cells) c = true := by
  cases c with
  | str s =>
      simp only [reconcileVal]
      apply contains_of_mem
      have hmem : CellVal.str s ∈ cells.filter looks_like_url :=
        List.mem_filter.mpr ⟨hc, hl⟩
      exact List.mem_map_of_mem trimOf hmem
  | num n => simp [looks_like_url] at hl
  | bool b => simp [looks_like_url] at hl
  | empty => simp [looks_like_url] at hl

theorem pollTimeoutAux_elapsed_gt (tick : Nat → Nat) (ht : ∀ m, 1 ≤ tick m) :
    ∀ (fuel n elapsed : Nat), 301 ≤ elapsed + fuel →
      300 < (pollTimeoutAux tick fuel n elapsed).2 := by
  intro fuel
  induction fuel with
  | zero =>
      intro n elapsed h
      simp only [pollTimeoutAux]
      omega
  | succ f ih =>
      intro n elapsed h
      simp only [pollTimeoutAux]
      by_cases hc : 300 < elapsed
      · rw [if_pos hc]
        exact hc
      · have htn := ht n
        rw [if_neg hc]
        exact ih (n + 1) (elapsed + tick n) (by omega)

theorem pollTimeoutAux_bound (tick : Nat → Nat) :
    ∀ (fuel n elapsed : Nat),
      ((pollTimeoutAux tick fuel n elapsed).1 = n ∧
        (pollTimeoutAux tick fuel n elapsed).2 = elapsed) ∨
      (n < (pollTimeoutAux tick fuel n elapsed).1 ∧
        (pollTimeoutAux tick fuel n elapsed).2
          ≤ 300 + tick ((pollTimeoutAux tick fuel n elapsed).1 - 1)) := by
  intro fuel
  induction fuel with
  | zero =>
      intro n elapsed
      exact Or.inl ⟨rfl, rfl⟩
  | succ f ih =>
      intro n elapsed
      simp only [pollTimeoutAux]
      by_cases hc : 300 < elapsed
      · rw [if_pos hc]
        exact Or.inl ⟨rfl, rfl⟩
      · rw [if_neg hc]
        rcases ih (n + 1) (elapsed + tick n) with ⟨ha, hb⟩ | ⟨ha, hb⟩
        · refine Or.inr ⟨by omega, ?_⟩
          rw [hb, ha]
          simp only [Nat.add_sub_cancel]
          omega
        · exact Or.inr ⟨by omega, hb⟩

theorem pollTimeoutAux_attempts_le (tick : Nat → Nat) (ht : ∀ m, 1 ≤ tick m) :
    ∀ (fuel n elapsed : Nat), n ≤ elapsed →
      (pollTimeoutAux tick fuel n elapsed).1 ≤ max n 301 := by
  intro fuel
  induction fuel with
  | zero =>
      intro n elapsed _
      exact Nat.le_max_left n 301
  | succ f ih =>
      intro n elapsed hne
      simp only [pollTimeoutAux]
      by_cases hc : 300 < elapsed
      · simp only [hc, if_true]
        exact Nat.le_max_left n 301
      · simp only [hc, if_false]
        have htn := ht n
        have h1 : (pollTimeoutAux tick f (n + 1) (elapsed + tick n)).1
            ≤ max (n + 1) 301 := ih (n + 1) (elapsed + tick n) (by omega)
        have h2 : max (n + 1) 301 = 301 := Nat.max_eq_right (by omega)
        have h3 : (301 : Nat) ≤ max n 301 := Nat.le_max_right n 301
        omega

/-! ### Claim theorems -/

/-- Claim C1, counterexample.  The claim says the submitted urls list contains
no duplicates, a qualifying URL on several rows occurring exactly once.  On the
sheet column holding the URL https://a.test on rows 1 and 3 and a non-URL on
row 2, the embedded extraction submits the URL twice: no deduplication happens
before submission. -/
theorem c1_dedup_cex :
    urls_to_check [CellVal.str "https://a.test", CellVal.str "not-a-url",
        CellVal.str "https://a.test"] = ["https://a.test", "https://a.test"] ∧
    (urls_to_check [CellVal.str "https://a.test", CellVal.str "not-a-url",
        CellVal.str "https://a.test"]).count "https://a.test" = 2 := by
  decide

/-- Claim C1, amended.  The submitted urls list keeps one entry per qualifying
row, in row order: the number of occurrences of a string u in the submitted
list equals the number of rows whose cell qualifies and strips to u, so a URL
referenced by N rows occurs N times, not once. -/
theorem c1_amended_count (cells : Cells) (u : String) :
    (urls_to_check cells).count u
      = (cells.filter (fun c => looks_like_url c && (trimOf c == u))).length := by
  simp only [urls_to_check]
  induction cells with
  | nil => rfl
  | cons c rest ih =>
      simp only [List.filter_cons]
      by_cases hl : looks_like_url c = true
      · simp only [hl, if_true, Bool.true_and, List.map_cons, List.count_cons]
        by_cases ht : (trimOf c == u) = true
        · simp [ht, ih]
        · simp [Bool.not_eq_true] at ht
          simp [ht, ih]
      · simp only [Bool.not_eq_true] at hl
        simp [hl, ih]

/-- Claim C2, counterexample.  The claim says every run that gets past reading
the input file produces a downloadable output, even when every selected sheet
failed.  With a single selected sheet holding one qualifying URL whose
submission is rejected by the service, the embedded run stops at the
active-tasks check with no output file. -/
theorem c2_always_download_cex :
    urls_to_check (dfOneUrl.getCol "Source") = ["https://a.test"] ∧
    runOutcome (fun _ => SubmitResult.rejected) (fun _ => []) ["S"] [("S", dfOneUrl)]
      = RunResult.stopped := by
  decide

/-- Claim C2, amended.  A run that gets past reading the input file offers a
downloadable output exactly when at least one sheet submission produced an
active task; when every selected sheet failed before that point (no recognised
target column, no qualifying targets, submission rejected, or transport error)
the run stops with a warning and no file. -/
theorem c2_amended_stop_iff (env : String → SubmitResult)
    (poll : List (Nat × TaskCtx) → List (String × DataFrame))
    (all_sheets : List String) (selected : List (String × DataFrame)) :
    runOutcome env poll all_sheets selected = RunResult.stopped ↔
      (stage1 env selected).active = [] := by
  unfold runOutcome
  cases h : (stage1 env selected).active with
  | nil => simp [h]
  | cons a rest => simp [h]

/-- Claim C3.  The claim expects that on a sheet whose only URL column is
headed Referring Page URL, rows holding https://a.test are written true once
the report names that URL.  The code instead finds the column for submission
(the keyword list of line 140 includes referring page url) but the
reconciliation-side lookup of line 230 searches only source, url and link, so
its subscript raises an IndexError and no row is ever written: the embedded
report handling returns none on the scenario sheet. -/
theorem c3_referring_page_url_bug :
    detectTargetCol dfBacklinks = some "Referring Page URL" ∧
    urls_to_check (dfBacklinks.getCol "Referring Page URL")
      = ["https://a.test", "https://a.test"] ∧
    reconcileTargetCol dfBacklinks = none ∧
    processReport dfBacklinks
      ((dfBacklinks.getCol "Referring Page URL").map looks_like_url)
      ["https://a.test"] = none := by
  decide

/-- Claim C4, counterexample.  The claim says timeout is declared after a fixed
maximum attempt count independent of wall-clock drift.  In the embedded loop
the number of poll iterations before timeout depends on how long each
iteration takes: four iterations when each lasts 100 time units, two when each
lasts 200, so no fixed attempt ceiling exists. -/
theorem c4_attempt_count_cex :
    pollAttempts (fun _ => 100) = 4 ∧ pollAttempts (fun _ => 200) = 2 ∧
    pollAttempts (fun _ => 100) ≠ pollAttempts (fun _ => 200) := by
  decide

/-- Claim C4, amended.  The poll loop bounds waiting by wall clock, not by an
attempt counter: it gives up once more than 300 seconds have elapsed, checked
at the top of each iteration, so when every iteration takes at least one time
unit the loop runs at most 301 iterations and the elapsed time at timeout
exceeds 300 but is at most 300 plus the duration of the last iteration. -/
theorem c4_amended_wall_clock (tick : Nat → Nat) (ht : ∀ m, 1 ≤ tick m) :
    pollAttempts tick ≤ 301 ∧
    300 < pollElapsed tick ∧
    pollElapsed tick ≤ 300 + tick (pollAttempts tick - 1) := by
  have hgt : 300 < (pollTimeoutAux tick 302 0 0).2 :=
    pollTimeoutAux_elapsed_gt tick ht 302 0 0 (by omega)
  have hb := pollTimeoutAux_bound tick 302 0 0
  have ha := pollTimeoutAux_attempts_le tick ht 302 0 0 (Nat.le_refl 0)
  unfold pollAttempts pollElapsed
  rcases hb with ⟨h1, h2⟩ | ⟨h1, h2⟩
  · rw [h2] at hgt
    omega
  · exact ⟨by simpa using ha, hgt, h2⟩

/-- Claim C4, witness for the amended theorem, at the constant iteration
duration of 150 time units. -/
theorem c4_amended_wall_clock_witness :
    pollAttempts (fun _ => 150) ≤ 301 ∧
    300 < pollElapsed (fun _ => 150) ∧
    pollElapsed (fun _ => 150) ≤ 300 + 150 :=
  c4_amended_wall_clock (fun _ => 150) (fun _ => (by decide : (1 : Nat) ≤ 150))

/-- Claim C5, counterexample.  The claim says the emitted workbook contains
every sheet of the input, unselected sheets passing through unchanged.  With
an input workbook of sheets A and B where only A was processed, the embedded
writer emits only A: B is absent from the output. -/
theorem c5_passthrough_cex :
    writeOutput ["A", "B"] [("A", dfNoUrls)] = [("A", dfNoUrls)] ∧
    ((writeOutput ["A", "B"] [("A", dfNoUrls)]).map Prod.fst).contains "B" = false := by
  decide

/-- Claim C5, amended.  The emitted workbook holds, in original workbook order,
exactly those sheets present in processed_sheets; sheets absent from it, in
particular every unselected sheet, are omitted from the output entirely. -/
theorem c5_amended_output_sheets (all_sheets : List String)
    (ps : List (String × DataFrame)) :
    (writeOutput all_sheets ps).map Prod.fst
      = all_sheets.filter (fun s => (lookupSheet ps s).isSome) := by
  induction all_sheets with
  | nil => rfl
  | cons s rest ih =>
      simp only [writeOutput, List.filterMap_cons, List.filter_cons] at *
      cases h : lookupSheet ps s <;> simp [h, ih]

/-- Claim C6, counterexample.  The claim says a failed completion-report fetch
is a terminal poll error and never a silent empty report.  When the fetched
body lacks the result object, the embedded parsing yields the empty positive
set and a qualifying row is written false, exactly as if the positive set were
empty. -/
theorem c6_silent_empty_cex :
    indexed_set_of none = [] ∧
    results_series [true] [CellVal.str "https://a.test"] (indexed_set_of none)
      = [some false] := by
  decide

/-- Claim C6, amended.  A completion-report response whose body lacks the
result object, or whose result lacks the indexed_links list, parses to the
empty positive set, and reconciling a sheet against it marks every qualifying
row false while leaving non-qualifying rows unwritten; a fetch that raises is
caught by the poll-loop handler and retried on a later tick rather than being
terminal. -/
theorem c6_amended_empty_report (mask : List Bool) (cells : Cells) :
    indexed_set_of none = [] ∧ indexed_set_of (some none) = [] ∧
    results_series mask cells (indexed_set_of none)
      = List.zipWith (fun m c => if m then some false else none) mask cells := by
  refine ⟨rfl, rfl, ?_⟩
  simp only [indexed_set_of]
  induction mask generalizing cells with
  | nil => rfl
  | cons m ms ih =>
      cases cells with
      | nil => rfl
      | cons c cs =>
          simp only [results_series, List.zipWith] at *
          rw [reconcileVal_nil c, ih]

/-- Claim C7, counterexample.  The claim says a failure in one sheet pipeline
never keeps a sibling sheet from reaching its own terminal outcome.  In the
embedded batch poll loop over two completed tasks, the first task is the
scenario sheet whose report handling raises; its exception aborts every pass
before the healthy second task is handled, so after 121 rounds (more than the
300 second budget allows at one pass per 2.5 second sleep) the sibling is
still not completed and no sheet was saved. -/
theorem c7_isolation_cex :
    (twoTaskHandle 2).isSome = true ∧
    twoTaskHandle 1 = none ∧
    pollRounds twoTaskHandle [(1, true), (2, true)] 121 = [] ∧
    (batchIter twoTaskHandle [(1, true), (2, true)] [] []).2.1 = [] := by
  decide

/-- Claim C7, amended.  Failure isolation holds at the submission stage: the
stage-1 loop decomposes per sheet, every sheet contributing its
processed_sheets entry and its active-task entry as a function of that sheet
and its own submission outcome alone, unaffected by sibling sheets.  The batch
poll stage does not isolate failures: one handler wraps the whole pass, so an
exception while handling one completed task abandons the remaining tasks of
that pass. -/
theorem c7_amended_stage1_isolated (env : String → SubmitResult)
    (sheets : List (String × DataFrame)) :
    (stage1 env sheets).processed = sheets.filterMap (sheetProcessedEntry env) ∧
    (stage1 env sheets).active = sheets.filterMap (sheetActiveEntry env) := by
  unfold stage1
  rw [stage1_append]
  simp

/-- Claim C8, counterexample.  The claim says a fixed header label is written
into the output column exactly once for every processed sheet, before any data
is read and even when zero targets are found.  A sheet with a recognised
target column but no qualifying URL is saved unchanged by the embedded stage-1
loop, and it carries no Index column at all: no header label was written. -/
theorem c8_header_stamp_cex :
    (stage1 (fun _ => SubmitResult.ok 1) [("S", dfNoUrls)]).processed
      = [("S", dfNoUrls)] ∧
    dfNoUrls.colNames.contains "Index" = false := by
  decide

/-- Claim C8, amended.  No header label is written before data is read: a
sheet with zero qualifying targets passes through stage 1 unchanged, and the
Index output column, header and all, comes into existence only when a
completed report is reconciled, at which point it is appended after the input
columns. -/
theorem c8_amended_index_col :
    (∀ (env : String → SubmitResult) (name : String) (df : DataFrame) (t : String),
        detectTargetCol df = some t → urls_to_check (df.getCol t) = [] →
        sheetProcessedEntry env (name, df) = some (name, df)) ∧
    (∀ (df : DataFrame) (mask : List Bool) (links : List String) (col : String),
        reconcileTargetCol df = some col → df.colNames.contains "Index" = false →
        ∃ d2, processReport df mask links = some d2 ∧
          d2.colNames = df.colNames ++ ["Index"]) := by
  constructor
  · intro env name df t h1 h2
    simp [sheetProcessedEntry, h1, h2]
  · intro df mask links col h1 h2
    refine ⟨df.setCol "Index"
      (mergeIndex (df.getCol "Index") (results_series mask (df.getCol col) links)),
      by simp [processReport, h1], ?_⟩
    unfold DataFrame.setCol
    rw [h2]
    simp [DataFrame.colNames]

/-- Claim C8, witness for the amended theorem: the no-URL sheet passes through
unchanged, and reconciling the round-trip sheet appends the Index column. -/
theorem c8_amended_index_col_witness :
    sheetProcessedEntry (fun _ => SubmitResult.ok 1) ("S", dfNoUrls)
      = some ("S", dfNoUrls) ∧
    ∃ d2, processReport dfRound [true, false, true] ["https://a.test"] = some d2 ∧
      d2.colNames = dfRound.colNames ++ ["Index"] :=
  ⟨c8_amended_index_col.1 (fun _ => SubmitResult.ok 1) "S" dfNoUrls "Source"
      (by decide) (by decide),
    c8_amended_index_col.2 dfRound [true, false, true] ["https://a.test"] "Source"
      (by decide) (by decide)⟩

/-- Claim C9, counterexample.  The claim states the round trip for every sheet.
On a sheet carrying both a URL column and a Source column, the submission side
picks Source by keyword priority and submits its URL, but the reconciliation
side re-derives the column by position from a narrower list and reads the URL
column instead; with the positive set exactly the submitted target set, the
qualifying row is written false, not true. -/
theorem c9_roundtrip_cex :
    detectTargetCol dfTwoCols = some "Source" ∧
    urls_to_check (dfTwoCols.getCol "Source") = ["https://s.test"] ∧
    processReport dfTwoCols ((dfTwoCols.getCol "Source").map looks_like_url)
        (urls_to_check (dfTwoCols.getCol "Source"))
      = some ⟨[("URL", [CellVal.str "https://u.test"]),
          ("Source", [CellVal.str "https://s.test"]),
          ("Index", [CellVal.bool false])]⟩ := by
  decide

/-- Claim C9, amended.  The round trip holds for every sheet on which the
reconciliation-side column lookup returns the same column the targets were
submitted from (in particular any sheet whose only recognised column is named
source, url or link): a positive set equal to the submitted target list marks
every qualifying row true, the empty positive set marks every qualifying row
false, and non-qualifying rows stay unwritten. -/
theorem c9_amended_roundtrip (df : DataFrame) (t : String)
    (h1 : detectTargetCol df = some t)
    (h2 : reconcileTargetCol df = some t)
    (h3 : df.colNames.contains "Index" = false) :
    processReport df ((df.getCol t).map looks_like_url)
        (urls_to_check (df.getCol t))
      = some (df.setCol "Index" ((df.getCol t).map
          (fun c => if looks_like_url c then CellVal.bool true else CellVal.empty))) ∧
    processReport df ((df.getCol t).map looks_like_url) []
      = some (df.setCol "Index" ((df.getCol t).map
          (fun c => if looks_like_url c then CellVal.bool false else CellVal.empty))) := by
  have hIdx : df.getCol "Index" = [] := getCol_of_not_contains df "Index" h3
  constructor
  · simp only [processReport, h2, hIdx]
    congr 2
    rw [results_series, zipWith_map_self, mergeIndex_nil, List.map_map]
    apply List.map_congr_left
    intro c hc
    by_cases hl : looks_like_url c = true
    · simp [Function.comp, hl, reconcileVal_urls (df.getCol t) hc hl]
    · simp only [Bool.not_eq_true] at hl
      simp [Function.comp, hl]
  · simp only [processReport, h2, hIdx]
    congr 2
    rw [results_series, zipWith_map_self, mergeIndex_nil, List.map_map]
    apply List.map_congr_left
    intro c hc
    by_cases hl : looks_like_url c = true
    · simp [Function.comp, hl, reconcileVal_nil]
    · simp only [Bool.not_eq_true] at hl
      simp [Function.comp, hl]

/-- Claim C9, witness for the amended theorem, on the single-column round-trip
sheet with a duplicated URL and one non-URL row. -/
theorem c9_amended_roundtrip_witness :
    processReport dfRound ((dfRound.getCol "Source").map looks_like_url)
        (urls_to_check (dfRound.getCol "Source"))
      = some (dfRound.setCol "Index" ((dfRound.getCol "Source").map
          (fun c => if looks_like_url c then CellVal.bool true else CellVal.empty))) ∧
    processReport dfRound ((dfRound.getCol "Source").map looks_like_url) []
      = some (dfRound.setCol "Index" ((dfRound.getCol "Source").map
          (fun c => if looks_like_url c then CellVal.bool false else CellVal.empty))) :=
  c9_amended_roundtrip dfRound "Source" (by decide) (by decide) (by decide)

/-- Claim C10.  The total reported to the notifier equals the sum, over the
selected sheets, of each sheet qualifying-URL count: the counter grows before
the submission attempt and never shrinks, so it does not depend on the
submission outcomes at all, and sheets whose submission was rejected or lost
to a transport error are still counted. -/
theorem c10_total_urls_sent (env : String → SubmitResult)
    (sheets : List (String × DataFrame)) :
    (stage1 env sheets).total = (sheets.map sheetUrlCount).sum := by
  unfold stage1
  rw [stage1_append]
  simp

end LinkCheck
